import Mathlib

/-!
Verification of the GErr structured-error library.

The embedding models `gerr.hpp` (error-chain core) and the `Try` fallible
result wrapper from `examples/simpletry/try.hpp`.

Modelling conventions:
* `gerr::Error` (a `std::shared_ptr<details::IError>`) becomes
  `Option ErrNode`; the null pointer is `none`.
* A `char const*` message (which may be a null pointer) becomes
  `Option String`; a `std::string` message becomes `String`.
* The nine concrete node classes of `gerr::details` become the nine
  constructors of the inductive `ErrNode`; the virtual methods `Code`,
  `Message`, `Cause` become total functions matching each override.
* C++ `int` codes become `Int` (overflow plays no role: codes are only
  compared for equality or against 0).
* Chains are finite by construction in the C++ source (causes are set only
  at creation, nodes are immutable), which the inductive type reflects.
-/

namespace gerr

/-- The nine concrete error-node classes of `gerr::details`
(`gerr.hpp` lines 558-688).  `cause` fields hold the wrapped error. -/
inductive ErrNode where
  | RawStrMessageError (msg : Option String)
  | MessageError (msg : String)
  | CodeRawStrMessageError (code : Int) (msg : Option String)
  | CodeMessageError (code : Int) (msg : String)
  | CodeSubError (code : Int) (cause : Option ErrNode)
  | RawStrMessageSubError (msg : Option String) (cause : Option ErrNode)
  | MessageSubError (msg : String) (cause : Option ErrNode)
  | CodeRawStrMessageSubError (code : Int) (msg : Option String)
      (cause : Option ErrNode)
  | CodeMessageSubError (code : Int) (msg : String) (cause : Option ErrNode)

/-- `gerr::Error`: a possibly-null shared pointer to an error node. -/
abbrev ErrorT := Option ErrNode

/-- The `Code()` virtual method: each class's override (0 when the class
stores no code, the stored code otherwise). -/
def ErrNode.Code : ErrNode → Int
  | .RawStrMessageError _ => 0
  | .MessageError _ => 0
  | .CodeRawStrMessageError c _ => c
  | .CodeMessageError c _ => c
  | .CodeSubError c _ => c
  | .RawStrMessageSubError _ _ => 0
  | .MessageSubError _ _ => 0
  | .CodeRawStrMessageSubError c _ _ => c
  | .CodeMessageSubError c _ _ => c

/-- The `Message()` virtual method: `none` models a null `char const*`
(the base default and `CodeSubError`'s override return `nullptr`;
`std::string`-backed classes always return a non-null `c_str()`). -/
def ErrNode.Message : ErrNode → Option String
  | .RawStrMessageError m => m
  | .MessageError m => some m
  | .CodeRawStrMessageError _ m => m
  | .CodeMessageError _ m => some m
  | .CodeSubError _ _ => none
  | .RawStrMessageSubError m _ => m
  | .MessageSubError m _ => some m
  | .CodeRawStrMessageSubError _ m _ => m
  | .CodeMessageSubError _ m _ => some m

/-- The `Cause()` virtual method: the stored cause, or `none` for the
leaf classes that override it with `return nullptr`. -/
def ErrNode.Cause : ErrNode → Option ErrNode
  | .RawStrMessageError _ => none
  | .MessageError _ => none
  | .CodeRawStrMessageError _ _ => none
  | .CodeMessageError _ _ => none
  | .CodeSubError _ k => k
  | .RawStrMessageSubError _ k => k
  | .MessageSubError _ k => k
  | .CodeRawStrMessageSubError _ _ k => k
  | .CodeMessageSubError _ _ k => k

mutual

/-- The successive values taken by the iteration pointer
`for (p = err; p != nullptr; p = p->Cause())` starting at a node:
the node followed by the chain of its cause. -/
def chain : ErrNode → List ErrNode
  | .RawStrMessageError m => [.RawStrMessageError m]
  | .MessageError m => [.MessageError m]
  | .CodeRawStrMessageError c m => [.CodeRawStrMessageError c m]
  | .CodeMessageError c m => [.CodeMessageError c m]
  | .CodeSubError c k => .CodeSubError c k :: chainOpt k
  | .RawStrMessageSubError m k => .RawStrMessageSubError m k :: chainOpt k
  | .MessageSubError m k => .MessageSubError m k :: chainOpt k
  | .CodeRawStrMessageSubError c m k =>
      .CodeRawStrMessageSubError c m k :: chainOpt k
  | .CodeMessageSubError c m k => .CodeMessageSubError c m k :: chainOpt k

/-- The iteration sequence of the same loop started at a possibly-null
error: empty when the pointer is null. -/
def chainOpt : Option ErrNode → List ErrNode
  | none => []
  | some n => chain n

end

/-- The iteration sequence starts with the node itself and continues
with its cause's sequence. -/
theorem chain_eq_cons (n : ErrNode) : chain n = n :: chainOpt n.Cause := by
  cases n <;> rfl

/-- The dynamic (concrete) type of a node, used to model the checked
downcast `std::dynamic_pointer_cast<ExpectErr>` in `gerr::As`:
for the leaf classes of the library the cast succeeds exactly when the
node's dynamic type is the requested class. -/
inductive VariantTag where
  | RawStrMessageError
  | MessageError
  | CodeRawStrMessageError
  | CodeMessageError
  | CodeSubError
  | RawStrMessageSubError
  | MessageSubError
  | CodeRawStrMessageSubError
  | CodeMessageSubError
deriving DecidableEq

/-- The dynamic type of each node. -/
def ErrNode.tagOf : ErrNode → VariantTag
  | .RawStrMessageError _ => .RawStrMessageError
  | .MessageError _ => .MessageError
  | .CodeRawStrMessageError _ _ => .CodeRawStrMessageError
  | .CodeMessageError _ _ => .CodeMessageError
  | .CodeSubError _ _ => .CodeSubError
  | .RawStrMessageSubError _ _ => .RawStrMessageSubError
  | .MessageSubError _ _ => .MessageSubError
  | .CodeRawStrMessageSubError _ _ _ => .CodeRawStrMessageSubError
  | .CodeMessageSubError _ _ _ => .CodeMessageSubError

/-- Loop body of `gerr::As` (gerr.hpp lines 432-437): walk the iteration
sequence, return the first node whose checked downcast to the requested
concrete class succeeds. -/
def asLoop (t : VariantTag) : List ErrNode → Option ErrNode
  | [] => none
  | p :: rest => if p.tagOf = t then some p else asLoop t rest

/-- `gerr::As<ExpectErr>` (gerr.hpp lines 423-439): null in, null out;
otherwise walk the cause chain and return the first node of the requested
concrete class, else null. -/
def As (t : VariantTag) (err : ErrorT) : ErrorT :=
  match err with
  | none => none
  | some n => asLoop t (chain n)

/-- `gerr::Is<ExpectErr>` (gerr.hpp lines 446-452):
`As<ExpectErr>(err) != nullptr`. -/
def Is (t : VariantTag) (err : ErrorT) : Bool :=
  (As t err).isSome

/-- Loop body of `gerr::AsCode` (gerr.hpp lines 467-472): return the first
node of the iteration sequence whose `Code()` equals the requested code. -/
def asCodeLoop (code : Int) : List ErrNode → Option ErrNode
  | [] => none
  | p :: rest => if p.Code = code then some p else asCodeLoop code rest

/-- `gerr::AsCode` (gerr.hpp lines 460-474): null in, null out (the
source's `return 0` builds the null shared pointer); otherwise the first
node on the chain whose `Code()` equals the requested code, else null. -/
def AsCode (code : Int) (err : ErrorT) : ErrorT :=
  match err with
  | none => none
  | some n => asCodeLoop code (chain n)

/-- `gerr::IsCode` (gerr.hpp lines 481-485):
`AsCode(code, err) != nullptr`. -/
def IsCode (code : Int) (err : ErrorT) : Bool :=
  (AsCode code err).isSome

/-- Loop body of `gerr::Code` (gerr.hpp lines 544-551): the first non-zero
`Code()` on the iteration sequence, or `defaultErrCode` when the loop
exhausts the chain. -/
def codeLoop (defaultErrCode : Int) : List ErrNode → Int
  | [] => defaultErrCode
  | p :: rest => if p.Code ≠ 0 then p.Code else codeLoop defaultErrCode rest

/-- `gerr::Code` (gerr.hpp lines 537-552): 0 for a null error, otherwise
the first non-zero code on the chain, otherwise `defaultErrCode`. -/
def Code (err : ErrorT) (defaultErrCode : Int) : Int :=
  match err with
  | none => 0
  | some n => codeLoop defaultErrCode (chain n)

/-- The call `gerr::Code(err)` with the declared default argument
`defaultErrCode = -1`. -/
def CodeDefault (err : ErrorT) : Int :=
  Code err (-1)

/-- The source's `hasMsg` test (gerr.hpp line 508):
`msg != nullptr && msg[0] != '\0'`. -/
def hasMsgOf (m : Option String) : Bool :=
  match m with
  | none => false
  | some s => !(s == "")

/-- One iteration of the rendering loop of `gerr::String`
(gerr.hpp lines 506-522): the segment contributed by a single node. -/
def renderSeg (n : ErrNode) : String :=
  if n.Code ≠ 0 ∧ hasMsgOf n.Message = true then
    toString n.Code ++ ":" ++ (n.Message).getD ""
  else if n.Code = 0 ∧ hasMsgOf n.Message = false then "<EMPTY>"
  else if n.Code = 0 then (n.Message).getD ""
  else toString n.Code

/-- The rendering loop of `gerr::String` over the iteration sequence:
after each node's segment, a `:` is appended exactly when the cause
pointer is still non-null (gerr.hpp lines 523-528). -/
def renderLoop : List ErrNode → String
  | [] => ""
  | [n] => renderSeg n
  | n :: m :: rest => renderSeg n ++ ":" ++ renderLoop (m :: rest)

/-- `gerr::String` (gerr.hpp lines 497-531): `"<NIL>"` for a null error,
otherwise the colon-joined segments of the chain.  (Named `StringOf` in
the embedding because `String` is Lean's string type.) -/
def StringOf (err : ErrorT) : String :=
  match err with
  | none => "<NIL>"
  | some n => renderLoop (chain n)

/-- `gerr::Make<ErrType>(args...)` (gerr.hpp lines 705-709): wrap a freshly
constructed node (the argument, already built by the requested class's
constructor) into the shared-pointer `Error` type; the result of
`std::make_shared` is never null. -/
def Make (n : ErrNode) : ErrorT :=
  some n

/-- `gerr::New(char const* msg)` (gerr.hpp lines 719-721). -/
def New (msg : Option String) : ErrorT :=
  Make (.RawStrMessageError msg)

/-- The formatted overloads `gerr::New(formatStr, args...)`
(gerr.hpp lines 731-741); the argument is the already-formatted message
produced by `fmt::format` (eager formatting). -/
def NewFmt (formatted : String) : ErrorT :=
  Make (.MessageError formatted)

/-- `gerr::New(int code, char const* msg)` (gerr.hpp lines 751-753). -/
def NewCode (code : Int) (msg : Option String) : ErrorT :=
  Make (.CodeRawStrMessageError code msg)

/-- The formatted overloads `gerr::New(code, formatStr, args...)`
(gerr.hpp lines 763-773). -/
def NewCodeFmt (code : Int) (formatted : String) : ErrorT :=
  Make (.CodeMessageError code formatted)

/-- `gerr::Wrap(err, char const* msg)` (gerr.hpp lines 783-788). -/
def Wrap (err : ErrorT) (msg : Option String) : ErrorT :=
  Make (.RawStrMessageSubError msg err)

/-- The formatted overloads `gerr::Wrap(err, formatStr, args...)`
(gerr.hpp lines 799-809). -/
def WrapFmt (err : ErrorT) (formatted : String) : ErrorT :=
  Make (.MessageSubError formatted err)

/-- `gerr::Wrap(err, int code)` (gerr.hpp lines 819-822). -/
def WrapCode (err : ErrorT) (code : Int) : ErrorT :=
  Make (.CodeSubError code err)

/-- `gerr::Wrap(err, code, char const* msg)` (gerr.hpp lines 832-835). -/
def WrapCodeMsg (err : ErrorT) (code : Int) (msg : Option String) : ErrorT :=
  Make (.CodeRawStrMessageSubError code msg err)

/-- The formatted overloads `gerr::Wrap(err, code, formatStr, args...)`
(gerr.hpp lines 845-858). -/
def WrapCodeFmt (err : ErrorT) (code : Int) (formatted : String) : ErrorT :=
  Make (.CodeMessageSubError code formatted err)

/-- Allocation state for the identity-sensitive model of the
macro-generated error classes: `next` is the next fresh object identity
handed out by `std::make_shared`. -/
structure Heap where
  next : Nat

/-- A node produced by a parameterless `DEFINE_ERROR` variant, carrying
its object identity (two nodes are the same object iff their ids agree;
the class itself is stateless). -/
structure PlainVNode where
  id : Nat
deriving DecidableEq

/-- `E()` of a `DEFINE_ERROR` variant (gerr.hpp lines 80-83).  The
function-local `static auto __valuE__ = ::gerr::Make<T>(...)` is modelled
by the `cache` argument (`none` before the first call): the call returns
the cached shared pointer when initialised, otherwise allocates a fresh
node, stores it in the static, and returns it.  Result components:
(returned `Error`, static after the call, heap after the call). -/
def plainE (cache : Option PlainVNode) (h : Heap) :
    Option PlainVNode × Option PlainVNode × Heap :=
  match cache with
  | some n => (some n, some n, h)
  | none =>
      let n : PlainVNode := { id := h.next }
      (some n, some n, { next := h.next + 1 })

/-- A node produced by a `DEFINE_CONTEXT_ERROR` variant: object identity,
the stored context payload `__contexT__` and the message formatted at
construction time. -/
structure CtxVNode (C : Type) where
  id : Nat
  context : C
  message : String

/-- The `.Context()` accessor of a `DEFINE_CONTEXT_ERROR` variant
(gerr.hpp line 240): returns the stored `__contexT__`. -/
def CtxVNode.Context {C : Type} (n : CtxVNode C) : C :=
  n.context

/-- `E(context)` of a `DEFINE_CONTEXT_ERROR` variant (gerr.hpp lines
186-196): construct a fresh node holding the context and the message
`fmt::format(format, context-fields...)` (the formatting call is
modelled by `fmtF`), with no cause.  Result components:
(returned `Error`, heap after the call). -/
def ctxE {C : Type} (fmtF : C → String) (context : C) (h : Heap) :
    Option (CtxVNode C) × Heap :=
  (some { id := h.next, context := context, message := fmtF context },
   { next := h.next + 1 })

end gerr

namespace mylib

/-- `mylib::Try<ValueType>` (try.hpp line 77): implemented as a
`std::pair<ValueType, gerr::Error>`; `first` is the value slot, `second`
the error slot.  The `Inhabited` instance supplies the
default-constructed `ValueType{}`. -/
structure Try (V : Type) where
  first : V
  second : gerr.ErrorT

/-- The constructors `Try(gerr::Error)` (try.hpp lines 84-102): value slot
default-constructed (`{}`), error slot set to the argument. -/
def Try.ofError {V : Type} [Inhabited V] (err : gerr.ErrorT) : Try V :=
  { first := default, second := err }

/-- The constructors `Try(ValueType)` (try.hpp lines 104-110): value slot
set, error slot null. -/
def Try.ofValue {V : Type} (val : V) : Try V :=
  { first := val, second := none }

/-- `IsSuccess` (try.hpp line 121): `second == nullptr`. -/
def Try.IsSuccess {V : Type} (t : Try V) : Bool :=
  t.second.isNone

/-- `IsFailure` (try.hpp line 122): `second != nullptr`. -/
def Try.IsFailure {V : Type} (t : Try V) : Bool :=
  t.second.isSome

/-- `Value` (try.hpp lines 124-125): returns the value slot. -/
def Try.Value {V : Type} (t : Try V) : V :=
  t.first

/-- `Error` (try.hpp lines 127-128): returns the error slot. -/
def Try.Error {V : Type} (t : Try V) : gerr.ErrorT :=
  t.second

/-- `ClearValue` (try.hpp line 130): `first = ValueType{}`. -/
def Try.ClearValue {V : Type} [Inhabited V] (t : Try V) : Try V :=
  { t with first := default }

/-- `ClearError` (try.hpp line 131): `second = nullptr`. -/
def Try.ClearError {V : Type} (t : Try V) : Try V :=
  { t with second := none }

/-- The `Assign(error)` overloads (try.hpp lines 133-163): if currently in
the success state, clear the value slot; then store the error. -/
def Try.AssignError {V : Type} [Inhabited V] (t : Try V) (err : gerr.ErrorT) :
    Try V :=
  let t1 := if t.IsSuccess then t.ClearValue else t
  { t1 with second := err }

/-- The `Assign(value)` overloads (try.hpp lines 175-187): if currently in
the failure state, clear the error slot; then store the value. -/
def Try.AssignValue {V : Type} (t : Try V) (newValue : V) : Try V :=
  let t1 := if t.IsFailure then t.ClearError else t
  { t1 with first := newValue }

end mylib

namespace gerr

/-- Specification-side characterisation (from the spec's words, for the
refinement claims): the first node of the chain, outermost first, whose
`Code()` equals the requested value; absent when the error is absent or
no node matches.  (The spec additionally says 0 never matches; that
exclusion is deliberately *not* written here so the comparison with the
source exposes whether the code implements it.) -/
def firstWithCode (code : Int) (err : ErrorT) : ErrorT :=
  (chainOpt err).find? (fun n => n.Code == code)

/-- Specification-side characterisation: the first node of the chain,
outermost first, whose concrete variant shape is the requested one;
absent when the error is absent or the chain is exhausted. -/
def firstWithTag (t : VariantTag) (err : ErrorT) : ErrorT :=
  (chainOpt err).find? (fun n => n.tagOf == t)

/-- Specification-side characterisation of `Code`: 0 when the error is
absent, otherwise the first non-zero `Code()` on the chain, otherwise the
supplied default. -/
def codeSpec (err : ErrorT) (d : Int) : Int :=
  match err with
  | none => 0
  | some n =>
      match (chain n).find? (fun p => !(p.Code == 0)) with
      | some p => p.Code
      | none => d

/-- Specification-side per-node rendering rule, written from the claim's
words: `"<code>:<message>"` when the code is non-zero and the message is
non-absent and non-empty, just the code when the message is absent or
empty, just the message when the code is zero, and `"<EMPTY>"` when the
code is zero and the message is absent or empty. -/
def renderSegSpec (n : ErrNode) : String :=
  if n.Code ≠ 0 then
    match n.Message with
    | some m => if m ≠ "" then toString n.Code ++ ":" ++ m else toString n.Code
    | none => toString n.Code
  else
    match n.Message with
    | some m => if m ≠ "" then m else "<EMPTY>"
    | none => "<EMPTY>"

/-- Proof-side helper: what the rendering loop appends after the first
segment (a `:` before each further node's segment). -/
def renderTail : List ErrNode → String
  | [] => ""
  | n :: rest => ":" ++ renderSeg n ++ renderTail rest

theorem asCodeLoop_eq_find (code : Int) (l : List ErrNode) :
    asCodeLoop code l = l.find? (fun n => n.Code == code) := by
  induction l with
  | nil => rfl
  | cons p rest ih =>
      by_cases h : p.Code = code <;>
        simp [asCodeLoop, List.find?_cons, h, ih]

theorem asLoop_eq_find (t : VariantTag) (l : List ErrNode) :
    asLoop t l = l.find? (fun n => n.tagOf == t) := by
  induction l with
  | nil => rfl
  | cons p rest ih =>
      by_cases h : p.tagOf = t <;>
        simp [asLoop, List.find?_cons, h, ih]

theorem codeLoop_eq_find (d : Int) (l : List ErrNode) :
    codeLoop d l =
      (match l.find? (fun p => !(p.Code == 0)) with
       | some p => p.Code
       | none => d) := by
  induction l with
  | nil => rfl
  | cons p rest ih =>
      by_cases h : p.Code = 0 <;>
        simp [codeLoop, List.find?_cons, h, ih]

theorem renderSeg_eq_spec (n : ErrNode) : renderSeg n = renderSegSpec n := by
  unfold renderSeg renderSegSpec
  cases hM : n.Message with
  | none =>
      by_cases hc : n.Code = 0 <;> simp [hasMsgOf, hc]
  | some m =>
      by_cases hc : n.Code = 0 <;> by_cases hm : m = "" <;>
        simp [hasMsgOf, hc, hm]

theorem renderLoop_eq_head_tail (n : ErrNode) (l : List ErrNode) :
    renderLoop (n :: l) = renderSeg n ++ renderTail l := by
  induction l generalizing n with
  | nil => simp [renderLoop, renderTail]
  | cons m rest ih =>
      simp only [renderLoop, renderTail]
      rw [ih m]
      simp [String.append_assoc]

theorem intercalate_go_renderTail (xs : List ErrNode) :
    ∀ acc : String,
      String.intercalate.go acc ":" (xs.map renderSeg) = acc ++ renderTail xs := by
  induction xs with
  | nil =>
      intro acc
      simp [String.intercalate.go, renderTail]
  | cons x rest ih =>
      intro acc
      simp only [List.map_cons]
      rw [String.intercalate.go, ih, renderTail]
      simp [String.append_assoc]

theorem renderLoop_eq_intercalate (n : ErrNode) (l : List ErrNode) :
    renderLoop (n :: l) = String.intercalate ":" ((n :: l).map renderSeg) := by
  rw [renderLoop_eq_head_tail]
  simp only [List.map_cons]
  rw [String.intercalate, intercalate_go_renderTail]

theorem toDigitsCore_length_le (b : Nat) :
    ∀ (f n : Nat) (ds : List Char),
      ds.length ≤ (Nat.toDigitsCore b f n ds).length := by
  intro f
  induction f with
  | zero => intro n ds; simp [Nat.toDigitsCore]
  | succ f ih =>
      intro n ds
      simp only [Nat.toDigitsCore]
      split
      · simp
      · exact le_trans (by simp) (ih (n / b) (Nat.digitChar (n % b) :: ds))

theorem toDigits_ne_nil (b n : Nat) : Nat.toDigits b n ≠ [] := by
  have h : 1 ≤ (Nat.toDigits b n).length := by
    show 1 ≤ (Nat.toDigitsCore b (n + 1) n []).length
    simp only [Nat.toDigitsCore]
    split
    · simp
    · exact le_trans (by simp)
        (toDigitsCore_length_le b n (n / b) [Nat.digitChar (n % b)])
  intro hcon
  rw [hcon] at h
  simp at h

theorem nat_repr_ne_empty (n : Nat) : Nat.repr n ≠ "" := by
  intro h
  have hd := congrArg String.data h
  simp only [Nat.repr, List.asString] at hd
  exact toDigits_ne_nil 10 n hd

theorem toString_int_ne_empty (c : Int) : toString c ≠ "" := by
  cases c with
  | ofNat m => exact nat_repr_ne_empty m
  | negSucc m =>
      intro h
      have he : toString (Int.negSucc m) = "-" ++ Nat.repr (m + 1) := rfl
      rw [he] at h
      have hd := congrArg String.data h
      simp [String.data_append] at hd

theorem append_ne_empty_left {a : String} (b : String) (ha : a ≠ "") :
    a ++ b ≠ "" := by
  intro h
  have hd := congrArg String.data h
  rw [String.data_append] at hd
  have hnil : a.data = [] := (List.append_eq_nil.mp hd).1
  exact ha (String.ext hnil)

theorem renderSeg_ne_empty (n : ErrNode) : renderSeg n ≠ "" := by
  unfold renderSeg
  split_ifs with h1 h2 h3
  · exact append_ne_empty_left _
      (append_ne_empty_left _ (toString_int_ne_empty n.Code))
  · decide
  · cases hM : n.Message with
    | none =>
        exact absurd ⟨h3, by simp [hasMsgOf, hM]⟩ h2
    | some m =>
        by_cases hm : m = ""
        · exact absurd ⟨h3, by simp [hasMsgOf, hM, hm]⟩ h2
        · simpa [hM] using hm
  · exact toString_int_ne_empty n.Code

theorem renderLoop_ne_empty (n : ErrNode) (l : List ErrNode) :
    renderLoop (n :: l) ≠ "" := by
  cases l with
  | nil => simpa [renderLoop] using renderSeg_ne_empty n
  | cons m rest =>
      simp only [renderLoop]
      exact append_ne_empty_left _
        (append_ne_empty_left _ (renderSeg_ne_empty n))

end gerr

/-- C3: for every error chain `err` and integer `d`, `Code(err, d)` returns
0 when `err` is absent; otherwise it walks the chain outermost-first and
returns the first non-zero `Code()` found; when the chain is exhausted
with no non-zero code it returns `d`, whose declared default is -1. -/
theorem code_walk_first_nonzero (err : gerr.ErrorT) (d : Int) :
    gerr.Code err d = gerr.codeSpec err d
      ∧ gerr.CodeDefault err = gerr.Code err (-1) := by
  refine ⟨?_, rfl⟩
  cases err with
  | none => rfl
  | some n =>
      simpa [gerr.Code, gerr.codeSpec] using
        gerr.codeLoop_eq_find d (gerr.chain n)

/-- C1 counterexample: the claim "`IsCode(c, err)` is true iff some node
has `Code() == c` *and* `c != 0`" fails at `c = 0` with
`err = New("boom")`: the source's `AsCode` has no zero exclusion, so the
node with code 0 matches and `IsCode` returns true even though
`0 != 0` is false. -/
theorem isCode_zero_exclusion_fails :
    ¬ (gerr.IsCode 0 (gerr.New (some "boom")) = true ↔
        ((0 : Int) ≠ 0 ∧
          ∃ n ∈ gerr.chainOpt (gerr.New (some "boom")), n.Code = 0)) := by
  intro hiff
  have h1 : gerr.IsCode 0 (gerr.New (some "boom")) = true := rfl
  exact absurd (hiff.mp h1).1 (by simp)

/-- C1 amended: `IsCode(c, err)` is true iff some node in the chain of
`err` has `Code() == c` (any `c`, 0 included — the code implements no
"0 never matches" rule); `AsCode(c, err)` walks the chain outermost-first
and returns the first node whose code equals the requested value,
returning absent when `err` is absent or no node matches. -/
theorem isCode_matches_chain (c : Int) (err : gerr.ErrorT) :
    (gerr.IsCode c err = true ↔ ∃ n ∈ gerr.chainOpt err, n.Code = c)
      ∧ gerr.AsCode c err = gerr.firstWithCode c err := by
  have hAs : gerr.AsCode c err = gerr.firstWithCode c err := by
    cases err with
    | none => rfl
    | some n =>
        simpa [gerr.AsCode, gerr.firstWithCode, gerr.chainOpt] using
          gerr.asCodeLoop_eq_find c (gerr.chain n)
  refine ⟨?_, hAs⟩
  rw [gerr.IsCode, hAs, gerr.firstWithCode]
  simp

/-- C2: `String` is total; `String(absent)` is exactly `"<NIL>"`; each
node renders per the code/message rules of the claim (checked as
`renderSeg = renderSegSpec`, the latter written from the claim's words);
segments of successive nodes are joined with `":"`; the result for a
non-absent error is always non-empty. -/
theorem string_rendering :
    gerr.StringOf none = "<NIL>"
      ∧ (∀ n : gerr.ErrNode, gerr.renderSeg n = gerr.renderSegSpec n)
      ∧ (∀ n : gerr.ErrNode,
          gerr.StringOf (some n) =
            String.intercalate ":" ((gerr.chain n).map gerr.renderSeg))
      ∧ (∀ n : gerr.ErrNode, gerr.StringOf (some n) ≠ "") := by
  refine ⟨rfl, gerr.renderSeg_eq_spec, ?_, ?_⟩
  · intro n
    rw [gerr.StringOf, gerr.chain_eq_cons n,
      gerr.renderLoop_eq_intercalate n (gerr.chainOpt n.Cause)]
  · intro n
    rw [gerr.StringOf, gerr.chain_eq_cons n]
    exact gerr.renderLoop_ne_empty n (gerr.chainOpt n.Cause)

/-- C4: `As<V>(err)` walks from the outermost node toward the root
following cause links and returns the first node of concrete variant
shape `V`, absent when `err` is absent or the chain is exhausted without
a match (so a deeper match is never preferred over a shallower one); in
particular when `Wrap` produces an outer node not of shape `V`, `As<V>`
of the wrapped error locates the deeper match inside the wrapped error. -/
theorem as_chain_traversal :
    (∀ (t : gerr.VariantTag) (err : gerr.ErrorT),
        gerr.As t err = gerr.firstWithTag t err)
      ∧ (∀ (t : gerr.VariantTag) (n : gerr.ErrNode) (m : String),
          t ≠ .MessageSubError →
            gerr.As t (gerr.WrapFmt (some n) m) = gerr.As t (some n)) := by
  constructor
  · intro t err
    cases err with
    | none => rfl
    | some n =>
        simpa [gerr.As, gerr.firstWithTag, gerr.chainOpt] using
          gerr.asLoop_eq_find t (gerr.chain n)
  · intro t n m ht
    show gerr.asLoop t (gerr.chain (.MessageSubError m (some n))) = _
    rw [gerr.chain_eq_cons]
    simp only [gerr.asLoop, gerr.ErrNode.tagOf, gerr.ErrNode.Cause,
      gerr.chainOpt]
    rw [if_neg fun hEq => ht hEq.symm]
    rfl

/-- Witness for C4: instantiates the wrap-traversal part at the concrete
variant `CodeMessageError 5 "deep"` wrapped by a `MessageSubError`. -/
theorem as_chain_traversal_witness :
    (gerr.VariantTag.CodeMessageError ≠ gerr.VariantTag.MessageSubError)
      ∧ gerr.As .CodeMessageError
            (gerr.WrapFmt (some (.CodeMessageError 5 "deep")) "outer")
          = gerr.As .CodeMessageError (some (.CodeMessageError 5 "deep")) :=
  ⟨by decide,
    as_chain_traversal.2 .CodeMessageError (.CodeMessageError 5 "deep")
      "outer" (by decide)⟩

/-- C5: a `Try` constructed from a value is in the success state;
assigning a (non-absent) error transitions it so that `IsSuccess` is
false, `IsFailure` is true, and `Value()` afterward returns the
default-constructed value, not the old one; symmetrically, assigning a
new value to a wrapper in the failure state (every failure state has the
form `⟨v', some en⟩`) clears the error slot — assignment is total state
replacement, never accumulation of both slots. -/
theorem try_assign_total_replacement {V : Type} [Inhabited V]
    (v w v' : V) (en : gerr.ErrNode) :
    (mylib.Try.ofValue v).IsSuccess = true
      ∧ ((mylib.Try.ofValue v).AssignError (some en)).IsSuccess = false
      ∧ ((mylib.Try.ofValue v).AssignError (some en)).IsFailure = true
      ∧ ((mylib.Try.ofValue v).AssignError (some en)).Value = (default : V)
      ∧ ((mylib.Try.mk v' (some en)).AssignValue w).Error = none
      ∧ ((mylib.Try.mk v' (some en)).AssignValue w).Value = w := by
  refine ⟨rfl, ?_, ?_, ?_, ?_, ?_⟩ <;>
    simp [mylib.Try.ofValue, mylib.Try.AssignError, mylib.Try.AssignValue,
      mylib.Try.IsSuccess, mylib.Try.IsFailure, mylib.Try.Value,
      mylib.Try.Error, mylib.Try.ClearValue, mylib.Try.ClearError]

/-- C6: for every message (raw or formatted) with or without a code,
`Wrap` applied to the absent error produces a new non-absent node whose
`Cause()` is absent — wrapping "no error" yields a new root-level error. -/
theorem wrap_absent_yields_root (m : Option String) (f : String) (c : Int) :
    (∃ n, gerr.Wrap none m = some n ∧ n.Cause = none)
      ∧ (∃ n, gerr.WrapFmt none f = some n ∧ n.Cause = none)
      ∧ (∃ n, gerr.WrapCode none c = some n ∧ n.Cause = none)
      ∧ (∃ n, gerr.WrapCodeMsg none c m = some n ∧ n.Cause = none)
      ∧ (∃ n, gerr.WrapCodeFmt none c f = some n ∧ n.Cause = none) :=
  ⟨⟨_, rfl, rfl⟩, ⟨_, rfl, rfl⟩, ⟨_, rfl, rfl⟩, ⟨_, rfl, rfl⟩, ⟨_, rfl, rfl⟩⟩

/-- C7: a parameterless variant's `E()` called twice returns the same
shared singleton instance (the second call returns exactly the error the
first call cached), while a contextual variant's `E(context)` called
twice returns two distinct nodes, and each node's `.Context()` is
exactly the payload it was constructed with. -/
theorem factory_singleton_and_context {C : Type}
    (fmtF : C → String) (c1 c2 : C) (h : gerr.Heap) :
    (gerr.plainE none h).1.isSome = true
      ∧ (gerr.plainE (gerr.plainE none h).2.1 (gerr.plainE none h).2.2).1
          = (gerr.plainE none h).1
      ∧ (∃ n1 n2, (gerr.ctxE fmtF c1 h).1 = some n1
          ∧ (gerr.ctxE fmtF c2 (gerr.ctxE fmtF c1 h).2).1 = some n2
          ∧ n1 ≠ n2 ∧ n1.Context = c1 ∧ n2.Context = c2) := by
  refine ⟨rfl, rfl, _, _, rfl, rfl, ?_, rfl, rfl⟩
  intro hEq
  have hid := congrArg gerr.CtxVNode.id hEq
  simp [gerr.ctxE] at hid

/-- C8: every construction operation — `Make`, every `New` overload,
every `Wrap` overload, and a typed variant's `E(...)` factory — always
returns a non-absent error, for every input including the absent cause. -/
theorem construction_never_absent (n : gerr.ErrNode) (m : Option String)
    (f : String) (c : Int) (err : gerr.ErrorT) {C : Type}
    (fmtF : C → String) (ctx : C) (cache : Option gerr.PlainVNode)
    (h : gerr.Heap) :
    (gerr.Make n).isSome = true
      ∧ (gerr.New m).isSome = true
      ∧ (gerr.NewFmt f).isSome = true
      ∧ (gerr.NewCode c m).isSome = true
      ∧ (gerr.NewCodeFmt c f).isSome = true
      ∧ (gerr.Wrap err m).isSome = true
      ∧ (gerr.WrapFmt err f).isSome = true
      ∧ (gerr.WrapCode err c).isSome = true
      ∧ (gerr.WrapCodeMsg err c m).isSome = true
      ∧ (gerr.WrapCodeFmt err c f).isSome = true
      ∧ (gerr.plainE cache h).1.isSome = true
      ∧ (gerr.ctxE fmtF ctx h).1.isSome = true := by
  refine ⟨rfl, rfl, rfl, rfl, rfl, rfl, rfl, rfl, rfl, rfl, ?_, rfl⟩
  cases cache <;> rfl

/-- C9: constructing a `Try` from the absent error yields a wrapper in
the success state — `IsSuccess` true, `IsFailure` false, `Error()`
absent, `Value()` the default-constructed value; the absent error is
silently accepted by the constructor. -/
theorem try_from_absent_error_is_success (V : Type) [Inhabited V] :
    ((mylib.Try.ofError none : mylib.Try V)).IsSuccess = true
      ∧ ((mylib.Try.ofError none : mylib.Try V)).IsFailure = false
      ∧ ((mylib.Try.ofError none : mylib.Try V)).Error = none
      ∧ ((mylib.Try.ofError none : mylib.Try V)).Value = (default : V) :=
  ⟨rfl, rfl, rfl, rfl⟩

/-- C10: for a `Try` currently in the success state, assigning the
absent error (via `Assign`, to which `operator=` delegates) leaves the
wrapper in the success state but resets the stored value to the
default-constructed one. -/
theorem assign_absent_error_resets_value {V : Type} [Inhabited V]
    (t : mylib.Try V) (hs : t.IsSuccess = true) :
    (t.AssignError none).IsSuccess = true
      ∧ (t.AssignError none).Value = (default : V) := by
  have hs' : t.second.isNone = true := hs
  constructor <;>
    simp [mylib.Try.AssignError, hs', mylib.Try.ClearValue,
      mylib.Try.IsSuccess, mylib.Try.Value]

/-- Witness for C10: a `Try Nat` holding 7 is in the success state;
after assigning the absent error it is still a success and its value is
the default 0, not 7. -/
theorem assign_absent_error_resets_value_witness :
    ((mylib.Try.ofValue 7 : mylib.Try Nat)).IsSuccess = true
      ∧ ((mylib.Try.ofValue 7 : mylib.Try Nat).AssignError none).IsSuccess
          = true
      ∧ ((mylib.Try.ofValue 7 : mylib.Try Nat).AssignError none).Value
          = 0 :=
  ⟨rfl,
    (assign_absent_error_resets_value (mylib.Try.ofValue 7) rfl).1,
    (assign_absent_error_resets_value (mylib.Try.ofValue 7) rfl).2⟩
